import Mathlib

/-!
Verification of the analysis-pipeline contract of `src/main.py` (a FastAPI
sentiment-analysis orchestrator).

The embedding models:
 * the JSON data model and a strict JSON parser (`json_loads`), modelling
   Python's `json.loads` on the RFC 8259 grammar (integer and raw
   fractional/exponent numeric literals; string escapes; `NaN`/`Infinity`
   extensions and surrogate-pair combination are not modelled — no claim
   depends on them);
 * Python `str.replace` (left-to-right, non-overlapping, single pass) and
   `str.strip`, used by the fence-stripping sanitisation step;
 * the two external collaborators (Tavily search, DashScope completion) as
   function-valued parameters: the search collaborator either yields an
   ordered result list or fails (a failure covering an unconfigured client,
   a raised exception, and a malformed response — all of which surface as
   exceptions caught by the same `except` block in the source), and the
   completion collaborator yields a status code, a message and a content
   string;
 * the pipeline `get_sentiment_analysis`, the request model `TopicRequest`
   and the route handler `analyze_sentiment`, line by line from the source.
-/

/-- JSON values.  Non-integer numeric literals are kept as their raw token
characters (`numRaw`): the claims only involve integers, and keeping the
token avoids modelling float semantics. -/
inductive Json where
  | null : Json
  | bool (b : Bool) : Json
  | num (n : Int) : Json
  | numRaw (token : List Char) : Json
  | str (s : String) : Json
  | arr (elems : List Json) : Json
  | obj (members : List (String × Json)) : Json

/-- The character `{` (written via its code point to keep it out of string
literals). -/
def lbrace : Char := Char.ofNat 123

/-- The character `}`. -/
def rbrace : Char := Char.ofNat 125

/-- JSON insignificant whitespace: space, tab, line feed, carriage return
(exactly the set Python's `json` module skips). -/
def isJsonWs (c : Char) : Bool :=
  c = ' ' || c = Char.ofNat 9 || c = Char.ofNat 10 || c = Char.ofNat 13

/-- Skip insignificant JSON whitespace. -/
def skipWs (cs : List Char) : List Char := cs.dropWhile isJsonWs

/-- Value of a two-character escape after a backslash. -/
def unescape (e : Char) : Option Char :=
  if e = '"' then some '"'
  else if e = '\\' then some '\\'
  else if e = '/' then some '/'
  else if e = 'b' then some (Char.ofNat 8)
  else if e = 'f' then some (Char.ofNat 12)
  else if e = 'n' then some (Char.ofNat 10)
  else if e = 'r' then some (Char.ofNat 13)
  else if e = 't' then some (Char.ofNat 9)
  else none

/-- Value of one hexadecimal digit. -/
def hexVal (c : Char) : Option Nat :=
  if 48 ≤ c.toNat ∧ c.toNat ≤ 57 then some (c.toNat - 48)
  else if 97 ≤ c.toNat ∧ c.toNat ≤ 102 then some (c.toNat - 87)
  else if 65 ≤ c.toNat ∧ c.toNat ≤ 70 then some (c.toNat - 55)
  else none

/-- Parse the body of a JSON string (the opening quote already consumed);
returns the decoded characters and the remaining input.  Raw control
characters are rejected, as in Python's strict mode. -/
def parseStringBody : List Char → Option (List Char × List Char)
  | [] => none
  | '"' :: r => some ([], r)
  | '\\' :: 'u' :: h1 :: h2 :: h3 :: h4 :: r =>
    match hexVal h1, hexVal h2, hexVal h3, hexVal h4 with
    | some a, some b, some c, some d =>
      (parseStringBody r).map fun p =>
        (Char.ofNat (((a * 16 + b) * 16 + c) * 16 + d) :: p.1, p.2)
    | _, _, _, _ => none
  | '\\' :: e :: r =>
    match unescape e with
    | some c => (parseStringBody r).map fun p => (c :: p.1, p.2)
    | none => none
  | c :: r =>
    if c.toNat < 32 then none
    else (parseStringBody r).map fun p => (c :: p.1, p.2)

/-- Numeric value of a digit string. -/
def natOfDigits (ds : List Char) : Nat :=
  ds.foldl (fun n c => n * 10 + (c.toNat - 48)) 0

/-- Parse an optional fraction part; yields the consumed characters
(including the dot) and the rest.  A dot not followed by a digit is a
syntax error. -/
def parseFrac (cs : List Char) : Option (List Char × List Char) :=
  match cs with
  | '.' :: r =>
    let fd := r.takeWhile Char.isDigit
    if fd = [] then none else some ('.' :: fd, r.drop fd.length)
  | _ => some ([], cs)

/-- Parse the tail of an exponent part (after `e`/`E`). -/
def parseExpTail (e : Char) (r : List Char) : Option (List Char × List Char) :=
  let p := match r with
    | '+' :: r₁ => (['+'], r₁)
    | '-' :: r₁ => (['-'], r₁)
    | _ => (([] : List Char), r)
  let ed := p.2.takeWhile Char.isDigit
  if ed = [] then none else some (e :: p.1 ++ ed, p.2.drop ed.length)

/-- Parse an optional exponent part. -/
def parseExp (cs : List Char) : Option (List Char × List Char) :=
  match cs with
  | 'e' :: r => parseExpTail 'e' r
  | 'E' :: r => parseExpTail 'E' r
  | _ => some ([], cs)

/-- Parse a JSON number.  Integral literals become `Json.num`; literals with
a fraction or exponent keep their raw token.  Leading zeros are rejected. -/
def parseNumber (cs : List Char) : Option (Json × List Char) :=
  let p := match cs with
    | '-' :: r => ((['-'] : List Char), r)
    | _ => (([] : List Char), cs)
  let ds := p.2.takeWhile Char.isDigit
  if ds = [] then none
  else if 2 ≤ ds.length ∧ ds.head? = some '0' then none
  else
    let cs₂ := p.2.drop ds.length
    match parseFrac cs₂ with
    | none => none
    | some (fr, cs₃) =>
      match parseExp cs₃ with
      | none => none
      | some (ex, cs₄) =>
        if fr = [] ∧ ex = [] then
          let n : Int := Int.ofNat (natOfDigits ds)
          some (Json.num (if p.1 = [] then n else -n), cs₄)
        else some (Json.numRaw (p.1 ++ ds ++ fr ++ ex), cs₄)

mutual

/-- Parse one JSON value (fuel-indexed to make the nesting recursion
structural; `json_loads` supplies ample fuel). -/
def parseValue : Nat → List Char → Option (Json × List Char)
  | 0, _ => none
  | f + 1, cs =>
    match skipWs cs with
    | [] => none
    | c :: r =>
      if c = '"' then
        (parseStringBody r).map fun p => (Json.str (String.mk p.1), p.2)
      else if c = '[' then
        match skipWs r with
        | ']' :: r₁ => some (Json.arr [], r₁)
        | r₂ => (parseElems f r₂).map fun p => (Json.arr p.1, p.2)
      else if c = lbrace then
        match skipWs r with
        | [] => none
        | c₁ :: r₁ =>
          if c₁ = rbrace then some (Json.obj [], r₁)
          else (parseMembers f (c₁ :: r₁)).map fun p => (Json.obj p.1, p.2)
      else
        match c :: r with
        | 'n' :: 'u' :: 'l' :: 'l' :: rest => some (Json.null, rest)
        | 't' :: 'r' :: 'u' :: 'e' :: rest => some (Json.bool true, rest)
        | 'f' :: 'a' :: 'l' :: 's' :: 'e' :: rest => some (Json.bool false, rest)
        | cs₁ => parseNumber cs₁

/-- Parse the elements of a non-empty JSON array, up to and including the
closing bracket. -/
def parseElems : Nat → List Char → Option (List Json × List Char)
  | 0, _ => none
  | f + 1, cs =>
    match parseValue f cs with
    | none => none
    | some (v, r) =>
      match skipWs r with
      | [] => none
      | c :: r₁ =>
        if c = ',' then (parseElems f r₁).map fun p => (v :: p.1, p.2)
        else if c = ']' then some ([v], r₁)
        else none

/-- Parse the members of a non-empty JSON object, up to and including the
closing brace. -/
def parseMembers : Nat → List Char → Option (List (String × Json) × List Char)
  | 0, _ => none
  | f + 1, cs =>
    match skipWs cs with
    | [] => none
    | c :: r =>
      if c = '"' then
        match parseStringBody r with
        | none => none
        | some (k, r₁) =>
          match skipWs r₁ with
          | ':' :: r₂ =>
            match parseValue f r₂ with
            | none => none
            | some (v, r₃) =>
              match skipWs r₃ with
              | [] => none
              | c₄ :: r₄ =>
                if c₄ = ',' then
                  (parseMembers f r₄).map fun p =>
                    ((String.mk k, v) :: p.1, p.2)
                else if c₄ = rbrace then some ([(String.mk k, v)], r₄)
                else none
          | _ => none
      else none

end

/-- Model of Python's `json.loads`: parse exactly one JSON value, allowing
only trailing whitespace. -/
def json_loads (s : String) : Option Json :=
  match parseValue (2 * s.data.length + 2) s.data with
  | some (v, rest) => if skipWs rest = [] then some v else none
  | none => none

/-- Fuel-indexed model of Python `str.replace(pat, "")`: scan left to right,
deleting each non-overlapping occurrence of `pat`; the scan does not revisit
text produced by a deletion.  (Python's empty-pattern behaviour is not
modelled; both patterns used by the source are non-empty.) -/
def replaceAllAux (pat : List Char) : Nat → List Char → List Char
  | 0, s => s
  | _ + 1, [] => []
  | f + 1, c :: rest =>
    if pat.isPrefixOf (c :: rest) ∧ pat ≠ [] then
      replaceAllAux pat f ((c :: rest).drop pat.length)
    else
      c :: replaceAllAux pat f rest

/-- Python `s.replace(pat, "")` for non-empty `pat`. -/
def replaceAll (pat s : List Char) : List Char :=
  replaceAllAux pat s.length s

/-- Python `str.strip()` restricted to the whitespace characters relevant
here (the source's stripped texts only carry ASCII whitespace at the
edges). -/
def pyStrip (s : List Char) : List Char :=
  ((s.dropWhile Char.isWhitespace).reverse.dropWhile Char.isWhitespace).reverse

/-- The characters of the pattern `"```json"`. -/
def btj : List Char := "```json".data

/-- The characters of the pattern `"```"`. -/
def bt3 : List Char := "```".data

/-- The fence-stripping sanitisation of `main.py` line 94:
`content.replace("```json", "").replace("```", "").strip()`. -/
def sanitize (s : String) : String :=
  String.mk (pyStrip (replaceAll bt3 (replaceAll btj s.data)))

/-! ## Data model and collaborators (`src/main.py` lines 45-58, 84-113) -/

/-- One search result, as consumed from the Tavily response
(`res['title']`, `res['url']`, `res['content']`, line 55). -/
structure SearchResult where
  title : String
  url : String
  content : String

/-- The arguments of the `tavily.search` call on line 54. -/
structure SearchArgs where
  query : String
  search_depth : String
  max_results : Nat

/-- Query construction of line 54:
`query=f"{topic} 最新评论 争议 事件分析", search_depth="advanced",
max_results=5`. -/
def searchArgs (topic : String) : SearchArgs :=
  ⟨topic ++ " 最新评论 争议 事件分析", "advanced", 5⟩

/-- The completion collaborator's reply (`dashscope.Generation.call`,
lines 85-89): a status code, a message, and — meaningful on success — the
text at `response.output.choices[0].message.content`. -/
structure CompletionResponse where
  status_code : Nat
  message : String
  content : String

/-- The FastAPI `HTTPException` raised on line 107. -/
structure HTTPException where
  status_code : Nat
  detail : String

/-- Line 55's per-result formatting `f"- [{res['title']}]({res['url']}):
{res['content']}"`. -/
def fmtSearchResult (r : SearchResult) : String :=
  "- [" ++ r.title ++ "](" ++ r.url ++ "): " ++ r.content

/-- Stage 1, Context Retrieval (lines 53-58).  The search collaborator is a
function yielding either an ordered result list or a failure; the failure
constructor covers every exception the `except` block catches: an
unconfigured client (`tavily` is `None`, so `.search` raises
`AttributeError`), a raised provider/network error, and a malformed
response (the `['results']`/`['title']` lookups raise `KeyError` inside the
same `try`). -/
def retrieveContext (search : SearchArgs → Except Unit (List SearchResult))
    (topic : String) : String :=
  match search (searchArgs topic) with
  | .ok results => String.intercalate "\n" (results.map fmtSearchResult)
  | .error _ => "搜索失败，仅基于模型知识库分析。"

/-- The prompt f-string of lines 63-82, up to the interpolated `{topic}`. -/
def promptPre : String :=
  "\n    你是一个高级舆情分析专家。请根据以下互联网搜索结果，对话题“"

/-- The prompt f-string between `{topic}` and `{context}`. -/
def promptMid : String :=
  "”进行深度分析。\n    \n    搜索结果上下文：\n    "

/-- The prompt f-string after `{context}` (the doubled braces of the
Python source denote literal braces). -/
def promptPost : String :=
  "\n\n    请必须以严格的 JSON 格式输出，不要包含 Markdown 代码块标记（如 ```json），直接返回 JSON 字符串。\n    JSON 结构要求如下：\n    \x7b\n        \"sentiment_score\": 0-100的整数 (0为极度负面，50中立，100极度正面),\n        \"sentiment_label\": \"正面/负面/中立/争议\",\n        \"keywords\": [\"关键词1\", \"关键词2\", \"关键词3\", \"关键词4\", \"关键词5\"],\n        \"trend_data\": [\n            \x7b\"date\": \"最近5天的日期1\", \"score\": 预估热度值0-100\x7d,\n            \x7b\"date\": \"最近5天的日期2\", \"score\": 预估热度值0-100\x7d,\n            ...\n        ],\n        \"report_markdown\": \"这里是一篇结构清晰、排版精美的深度分析报告（Markdown格式）。请包含：事件背景、各方观点、情感分析结论、未来走势预测。请使用emoji修饰标题。\"\n    \x7d\n    "

/-- Stage 2, Prompt Construction (lines 63-82): Python f-string
interpolation is concatenation of the fixed template pieces with the
interpolated values. -/
def buildPrompt (topic context : String) : String :=
  promptPre ++ topic ++ promptMid ++ context ++ promptPost

/-- The fallback report built on lines 99-105 when `json.loads` raises
`JSONDecodeError`. -/
def fallbackReport (content : String) : Json :=
  Json.obj
    [("sentiment_score", Json.num 50),
     ("sentiment_label", Json.str "解析错误"),
     ("keywords", Json.arr [Json.str "Error"]),
     ("trend_data", Json.arr []),
     ("report_markdown", Json.str ("解析模型输出失败，原始输出：\n" ++ content))]

/-- The pipeline `get_sentiment_analysis` (lines 49-107).  `search` and
`generate` are the two external collaborators; `HTTPStatus.OK` is 200. -/
def get_sentiment_analysis (search : SearchArgs → Except Unit (List SearchResult))
    (generate : String → CompletionResponse) (topic : String) :
    Except HTTPException Json :=
  let context := retrieveContext search topic
  let prompt := buildPrompt topic context
  let response := generate prompt
  if response.status_code = 200 then
    let content := sanitize response.content
    match json_loads content with
    | some v => Except.ok v
    | none => Except.ok (fallbackReport content)
  else
    Except.error ⟨500, "Model Error: " ++ response.message⟩

/-- The pydantic request model of lines 45-46 (`topic: str`). -/
structure TopicRequest where
  topic : String

/-- Pydantic validation of a request body against `TopicRequest`: the body
must be a JSON object whose `topic` member is a JSON string (any string,
no length constraint); other members are ignored, duplicate keys resolve
last-wins as in Python's `json` module. -/
def parseTopicRequest (body : Json) : Option TopicRequest :=
  match body with
  | Json.obj members =>
    match (members.filter fun m => m.1 == "topic").getLast? with
    | some (_, Json.str s) => some ⟨s⟩
    | _ => none
  | _ => none

/-- Outcome of the `/api/analyze` route: either pydantic rejects the body
(FastAPI's 422), or the handler body runs and yields the pipeline's
outcome (`Except.ok` rendered as HTTP 200, `Except.error` as the raised
`HTTPException`). -/
inductive HandlerOutcome where
  | unprocessable : HandlerOutcome
  | response (r : Except HTTPException Json) : HandlerOutcome

/-- The `POST /api/analyze` handler (lines 110-113): validate the body,
then return `get_sentiment_analysis(request.topic)` unchanged. -/
def analyze_sentiment (search : SearchArgs → Except Unit (List SearchResult))
    (generate : String → CompletionResponse) (body : Json) : HandlerOutcome :=
  match parseTopicRequest body with
  | none => HandlerOutcome.unprocessable
  | some req => HandlerOutcome.response (get_sentiment_analysis search generate req.topic)

/-! ## Shape of an AnalysisReport (spec §3) -/

/-- Member lookup in a JSON object, last occurrence winning. -/
def Json.get? (j : Json) (k : String) : Option Json :=
  match j with
  | Json.obj members =>
    match (members.filter fun m => m.1 == k).getLast? with
    | some kv => some kv.2
    | none => none
  | _ => none

/-- Is this optional value an integer? -/
def isIntOpt : Option Json → Bool
  | some (Json.num _) => true
  | _ => false

/-- Is this optional value a string? -/
def isStrOpt : Option Json → Bool
  | some (Json.str _) => true
  | _ => false

/-- Is this value a string? -/
def Json.isStrVal : Json → Bool
  | Json.str _ => true
  | _ => false

/-- Is this value a trend point `\x7b date: string, score: integer \x7d`? -/
def isTrendPoint (j : Json) : Bool :=
  isStrOpt (j.get? "date") && isIntOpt (j.get? "score")

/-- Is this optional value an array of strings? -/
def isStrArrOpt : Option Json → Bool
  | some (Json.arr xs) => xs.all Json.isStrVal
  | _ => false

/-- Is this optional value an array of trend points? -/
def isTrendArrOpt : Option Json → Bool
  | some (Json.arr xs) => xs.all isTrendPoint
  | _ => false

/-- Is this value a JSON object? -/
def Json.isObj : Json → Bool
  | Json.obj _ => true
  | _ => false

/-- The AnalysisReport shape of spec §3: an object with the five fields at
their documented JSON types (`sentiment_score` integer, `sentiment_label`
string, `keywords` array of strings, `trend_data` array of
`\x7b date, score \x7d` points, `report_markdown` string).  The documented
0-100 *range* is not a JSON type and is checked nowhere in the source. -/
def isReportShaped (j : Json) : Bool :=
  j.isObj && isIntOpt (j.get? "sentiment_score")
    && isStrOpt (j.get? "sentiment_label")
    && isStrArrOpt (j.get? "keywords")
    && isTrendArrOpt (j.get? "trend_data")
    && isStrOpt (j.get? "report_markdown")

/-- Project a string-valued field. -/
def Json.strField (j : Json) (k : String) : Option String :=
  match j.get? k with
  | some (Json.str s) => some s
  | _ => none

/-- Project an integer-valued field. -/
def Json.intField (j : Json) (k : String) : Option Int :=
  match j.get? k with
  | some (Json.num n) => some n
  | _ => none

/-! ## Concrete collaborator instances used in witnesses -/

/-- A search collaborator that always fails (covers the unconfigured /
raising / malformed cases, which the source's `except` block treats
alike). -/
def searchDown : SearchArgs → Except Unit (List SearchResult) := fun _ => Except.error ()

/-- A healthy completion collaborator that always answers 200 with the
given content. -/
def generateConst (content : String) : String → CompletionResponse :=
  fun _ => ⟨200, "", content⟩

/-- A completion collaborator that always fails with the given status and
message. -/
def generateFail (status : Nat) (message : String) : String → CompletionResponse :=
  fun _ => ⟨status, message, ""⟩

/-- A concrete search collaborator returning two results. -/
def searchTwo : SearchArgs → Except Unit (List SearchResult) :=
  fun _ => Except.ok
    [⟨"标题一", "https://a.example", "内容一"⟩, ⟨"标题二", "https://b.example", "内容二"⟩]

/-- Length of the array in an optional JSON value (0 otherwise); used to
separate concrete reports. -/
def arrLenOpt : Option Json → Nat
  | some (Json.arr xs) => xs.length
  | _ => 0

/-- The completion content used for C9: a valid JSON object already in
AnalysisReport shape whose `report_markdown` contains a ` ``` ` run. -/
def c9content : String :=
  "\x7b\"sentiment_score\": 60, \"sentiment_label\": \"中立\", \"keywords\": [\"k\"], \"trend_data\": [\x7b\"date\": \"2025-01-01\", \"score\": 55\x7d], \"report_markdown\": \"走势```分析\"\x7d"

/-- What `json.loads` yields on the original (unsanitised) C9 content. -/
def c9orig : Json :=
  Json.obj
    [("sentiment_score", Json.num 60),
     ("sentiment_label", Json.str "中立"),
     ("keywords", Json.arr [Json.str "k"]),
     ("trend_data", Json.arr [Json.obj [("date", Json.str "2025-01-01"), ("score", Json.num 55)]]),
     ("report_markdown", Json.str "走势```分析")]

/-- What the pipeline actually returns for the C9 content: the backticks
inside the `report_markdown` string literal were stripped away. -/
def c9stripped : Json :=
  Json.obj
    [("sentiment_score", Json.num 60),
     ("sentiment_label", Json.str "中立"),
     ("keywords", Json.arr [Json.str "k"]),
     ("trend_data", Json.arr [Json.obj [("date", Json.str "2025-01-01"), ("score", Json.num 55)]]),
     ("report_markdown", Json.str "走势分析")]

/-! ## Properties of the fence-stripping `replace` model -/

lemma replaceAllAux_nil (pat : List Char) (f : Nat) : replaceAllAux pat f [] = [] := by
  cases f <;> rfl

lemma replaceAllAux_fuel (pat : List Char) :
    ∀ f g s, s.length ≤ f → s.length ≤ g →
      replaceAllAux pat f s = replaceAllAux pat g s := by
  intro f
  induction f with
  | zero =>
    intro g s hf _
    have hs : s = [] := List.eq_nil_of_length_eq_zero (Nat.le_zero.mp hf)
    subst hs
    rw [replaceAllAux_nil, replaceAllAux_nil]
  | succ f ih =>
    intro g s hf hg
    cases s with
    | nil => rw [replaceAllAux_nil, replaceAllAux_nil]
    | cons c rest =>
      cases g with
      | zero => simp at hg
      | succ g' =>
        simp only [replaceAllAux]
        by_cases h : pat.isPrefixOf (c :: rest) ∧ pat ≠ []
        · rw [if_pos h, if_pos h]
          have hpat : 0 < pat.length := List.length_pos.mpr h.2
          simp only [List.length_cons] at hf hg
          apply ih
          · simp only [List.length_drop, List.length_cons]
            omega
          · simp only [List.length_drop, List.length_cons]
            omega
        · rw [if_neg h, if_neg h]
          simp only [List.length_cons] at hf hg
          exact congrArg (c :: ·) (ih g' rest (by omega) (by omega))

lemma replaceAll_cons_pos (pat : List Char) (c : Char) (rest : List Char)
    (h1 : pat ≠ []) (h2 : pat.isPrefixOf (c :: rest)) :
    replaceAll pat (c :: rest) = replaceAll pat ((c :: rest).drop pat.length) := by
  unfold replaceAll
  have hpat : 0 < pat.length := List.length_pos.mpr h1
  have hstep : replaceAllAux pat (c :: rest).length (c :: rest)
      = replaceAllAux pat rest.length ((c :: rest).drop pat.length) := by
    simp only [List.length_cons, replaceAllAux]
    rw [if_pos (And.intro h2 h1)]
  rw [hstep]
  apply replaceAllAux_fuel
  · simp only [List.length_drop, List.length_cons]
    omega
  · exact Nat.le_refl _

lemma replaceAll_cons_neg (pat : List Char) (c : Char) (rest : List Char)
    (h : ¬ pat.isPrefixOf (c :: rest)) :
    replaceAll pat (c :: rest) = c :: replaceAll pat rest := by
  unfold replaceAll
  simp only [List.length_cons, replaceAllAux]
  rw [if_neg (fun hc => h hc.1)]

/-- Deleting a pattern from `pat ++ s` starts by deleting the leading
occurrence. -/
lemma replaceAll_self_append (pat s : List Char) (h : pat ≠ []) :
    replaceAll pat (pat ++ s) = replaceAll pat s := by
  cases pat with
  | nil => exact absurd rfl h
  | cons c p' =>
    have hpre : (c :: p').isPrefixOf (c :: (p' ++ s)) := by
      rw [ List.isPrefixOf_iff_prefix]
      exact List.prefix_append (c :: p') s
    rw [show (c :: p') ++ s = c :: (p' ++ s) from rfl]
    rw [replaceAll_cons_pos (c :: p') c (p' ++ s) (by simp) hpre]
    congr 1
    rw [show (c : Char) :: (p' ++ s) = (c :: p') ++ s from rfl]
    exact List.drop_left (c :: p') s

/-- No occurrence of `"```json"` can straddle the boundary with a trailing
`"```"`: the pattern ends in `n`, the tail holds only backticks. -/
lemma btj_isPrefixOf_append (t : List Char) (h : btj.isPrefixOf (t ++ bt3)) :
    btj.isPrefixOf t := by
  rw [ List.isPrefixOf_iff_prefix] at h ⊢
  rcases List.prefix_or_prefix_of_prefix h (List.prefix_append t bt3) with hp | hp
  · exact hp
  · obtain ⟨r, hr⟩ := hp
    by_cases hrn : r = []
    · subst hrn
      rw [List.append_nil] at hr
      rw [hr]
    · exfalso
      have hr3 : r <+: bt3 := by
        have hx : t ++ r <+: t ++ bt3 := by rw [hr]; exact h
        exact (List.prefix_append_right_inj t).mp hx
      have hlast : btj.getLast? = r.getLast? := by
        rw [← hr, List.getLast?_append_of_ne_nil t hrn]
      have h96 : r.getLast hrn = Char.ofNat 96 := by
        have hmem : r.getLast hrn ∈ bt3 := hr3.sublist.subset (List.getLast_mem hrn)
        have hall : ∀ x ∈ bt3, x = Char.ofNat 96 := by decide
        exact hall _ hmem
      have hn : btj.getLast? = some (Char.ofNat 96) := by
        rw [hlast, List.getLast?_eq_getLast r hrn, h96]
      exact absurd hn (by decide)

/-- Appending `"```"` after the scan of `"```json"` just carries the tail
through. -/
theorem replaceAll_btj_append_bt3 (t : List Char) :
    replaceAll btj (t ++ bt3) = replaceAll btj t ++ bt3 := by
  match t with
  | [] => decide
  | c :: t' =>
    by_cases hp : btj.isPrefixOf (c :: t')
    · have hppre : btj <+: (c :: t') := List.isPrefixOf_iff_prefix.mp hp
      have h7 : btj.length ≤ (c :: t').length := hppre.length_le
      have hpre2 : btj.isPrefixOf (c :: (t' ++ bt3)) := by
        rw [ List.isPrefixOf_iff_prefix]
        exact hppre.trans (List.prefix_append (c :: t') bt3)
      rw [show (c :: t') ++ bt3 = c :: (t' ++ bt3) from rfl]
      rw [replaceAll_cons_pos btj c (t' ++ bt3) (by decide) hpre2]
      rw [replaceAll_cons_pos btj c t' (by decide) hp]
      have hdrop : (c :: (t' ++ bt3)).drop btj.length = (c :: t').drop btj.length ++ bt3 := by
        rw [show (c : Char) :: (t' ++ bt3) = (c :: t') ++ bt3 from rfl]
        exact List.drop_append_of_le_length h7
      rw [hdrop]
      exact replaceAll_btj_append_bt3 ((c :: t').drop btj.length)
    · have hp2 : ¬ btj.isPrefixOf (c :: (t' ++ bt3)) := fun hcon =>
        hp (btj_isPrefixOf_append (c :: t') hcon)
      rw [show (c :: t') ++ bt3 = c :: (t' ++ bt3) from rfl]
      rw [replaceAll_cons_neg btj c (t' ++ bt3) hp2]
      rw [replaceAll_cons_neg btj c t' hp]
      rw [List.cons_append, replaceAll_btj_append_bt3 t']
termination_by t.length
decreasing_by
  · simp only [List.length_drop, List.length_cons]
    have hb : btj.length = 7 := by decide
    omega
  · simp only [List.length_cons]
    omega

lemma bt3_eq : bt3 = [Char.ofNat 96, Char.ofNat 96, Char.ofNat 96] := by decide

/-- Deleting `"```"` occurrences absorbs a trailing `"```"` entirely:
appending three backticks extends the final backtick run by a multiple of
the pattern length, so the scan's output is unchanged. -/
theorem replaceAll_bt3_append_bt3 (x : List Char) :
    replaceAll bt3 (x ++ bt3) = replaceAll bt3 x := by
  match x with
  | [] => decide
  | c :: x' =>
    by_cases hp : bt3.isPrefixOf (c :: x')
    · have hppre : bt3 <+: (c :: x') := List.isPrefixOf_iff_prefix.mp hp
      have h3 : bt3.length ≤ (c :: x').length := hppre.length_le
      have hpre2 : bt3.isPrefixOf (c :: (x' ++ bt3)) := by
        rw [ List.isPrefixOf_iff_prefix]
        exact hppre.trans (List.prefix_append (c :: x') bt3)
      rw [show (c :: x') ++ bt3 = c :: (x' ++ bt3) from rfl]
      rw [replaceAll_cons_pos bt3 c (x' ++ bt3) (by decide) hpre2]
      rw [replaceAll_cons_pos bt3 c x' (by decide) hp]
      have hdrop : (c :: (x' ++ bt3)).drop bt3.length = (c :: x').drop bt3.length ++ bt3 := by
        rw [show (c : Char) :: (x' ++ bt3) = (c :: x') ++ bt3 from rfl]
        exact List.drop_append_of_le_length h3
      rw [hdrop]
      exact replaceAll_bt3_append_bt3 ((c :: x').drop bt3.length)
    · by_cases hq : bt3.isPrefixOf (c :: (x' ++ bt3))
      · have h1 : bt3 <+: (c :: x') ++ bt3 := List.isPrefixOf_iff_prefix.mp hq
        have h2 : (c :: x') <+: (c :: x') ++ bt3 := List.prefix_append (c :: x') bt3
        rcases List.prefix_or_prefix_of_prefix h1 h2 with hc | hc
        · exact absurd ( List.isPrefixOf_iff_prefix.mpr hc) hp
        · obtain ⟨r, hr⟩ := hc
          rw [bt3_eq] at hr
          rcases x' with _ | ⟨c2, x''⟩
          · simp only [List.cons_append, List.nil_append, List.cons.injEq] at hr
            obtain ⟨hc1, _⟩ := hr
            subst hc1
            decide
          · rcases x'' with _ | ⟨c3, x'''⟩
            · simp only [List.cons_append, List.nil_append, List.cons.injEq] at hr
              obtain ⟨hc1, hc2, _⟩ := hr
              subst hc1
              subst hc2
              decide
            · simp only [List.cons_append, List.cons.injEq] at hr
              obtain ⟨hc1, hc2, hc3, hrest⟩ := hr
              obtain ⟨hx3, hrnil⟩ := List.append_eq_nil.mp hrest
              subst hc1
              subst hc2
              subst hc3
              subst hx3
              exact absurd (by decide) hp
      · rw [show (c :: x') ++ bt3 = c :: (x' ++ bt3) from rfl]
        rw [replaceAll_cons_neg bt3 c (x' ++ bt3) hq]
        rw [replaceAll_cons_neg bt3 c x' hp]
        rw [replaceAll_bt3_append_bt3 x']
termination_by x.length
decreasing_by
  · simp only [List.length_drop, List.length_cons]
    have hb : bt3.length = 3 := by decide
    omega
  · simp only [List.length_cons]
    omega

/-- Sanitising a fence-wrapped text yields exactly the sanitised inner
text. -/
theorem sanitize_wrap (T : String) :
    sanitize ("```json" ++ T ++ "```") = sanitize T := by
  unfold sanitize
  have hdata : ("```json" ++ T ++ "```").data = btj ++ (T.data ++ bt3) := by
    rw [String.data_append, String.data_append, List.append_assoc]
    rfl
  rw [hdata]
  rw [replaceAll_self_append btj (T.data ++ bt3) (by decide)]
  rw [replaceAll_btj_append_bt3 T.data]
  rw [replaceAll_bt3_append_bt3 (replaceAll btj T.data)]

/-! ## Pipeline characterisation -/

/-- `get_sentiment_analysis` with its `let`-bindings expanded. -/
lemma get_sentiment_analysis_def
    (search : SearchArgs → Except Unit (List SearchResult))
    (generate : String → CompletionResponse) (topic : String) :
    get_sentiment_analysis search generate topic =
      if (generate (buildPrompt topic (retrieveContext search topic))).status_code = 200 then
        match json_loads (sanitize (generate (buildPrompt topic (retrieveContext search topic))).content) with
        | some v => Except.ok v
        | none =>
          Except.ok (fallbackReport
            (sanitize (generate (buildPrompt topic (retrieveContext search topic))).content))
      else
        Except.error
          ⟨500, "Model Error: " ++ (generate (buildPrompt topic (retrieveContext search topic))).message⟩ :=
  rfl

/-! ## The claims -/

/-- C1 (counterexample): with the search collaborator down and the
completion collaborator answering 200 with content `"\x7b\x7d"` — valid JSON —
the success body is the bare empty object, which does not carry the five
AnalysisReport fields.  This falsifies the claim that every success body
contains all five fields. -/
theorem c1_counterexample :
    get_sentiment_analysis searchDown (generateConst "\x7b\x7d") "t" =
      Except.ok (Json.obj []) ∧
    isReportShaped (Json.obj []) = false :=
  ⟨rfl, rfl⟩

/-- C1 (amended): a request either fails with a 500 carrying the
collaborator's message, or returns the collaborator's parsed JSON value
as-is (of arbitrary shape), or — exactly when the sanitised content is not
valid JSON — returns the fallback report, which does carry all five
AnalysisReport fields at their documented types.  The five-field shape is
guaranteed only on that fallback path. -/
theorem c1_success_shape_amended
    (search : SearchArgs → Except Unit (List SearchResult))
    (generate : String → CompletionResponse) (topic : String) :
    ((generate (buildPrompt topic (retrieveContext search topic))).status_code ≠ 200 ∧
      get_sentiment_analysis search generate topic =
        Except.error
          ⟨500, "Model Error: " ++ (generate (buildPrompt topic (retrieveContext search topic))).message⟩) ∨
    (∃ v, json_loads (sanitize (generate (buildPrompt topic (retrieveContext search topic))).content) = some v ∧
      get_sentiment_analysis search generate topic = Except.ok v) ∨
    (json_loads (sanitize (generate (buildPrompt topic (retrieveContext search topic))).content) = none ∧
      get_sentiment_analysis search generate topic =
        Except.ok (fallbackReport (sanitize (generate (buildPrompt topic (retrieveContext search topic))).content)) ∧
      isReportShaped (fallbackReport (sanitize (generate (buildPrompt topic (retrieveContext search topic))).content)) = true) := by
  by_cases h200 : (generate (buildPrompt topic (retrieveContext search topic))).status_code = 200
  · cases hj : json_loads (sanitize (generate (buildPrompt topic (retrieveContext search topic))).content) with
    | none =>
      refine Or.inr (Or.inr ⟨rfl, ?_, rfl⟩)
      rw [get_sentiment_analysis_def, if_pos h200, hj]
    | some v =>
      refine Or.inr (Or.inl ⟨v, rfl, ?_⟩)
      rw [get_sentiment_analysis_def, if_pos h200, hj]
  · refine Or.inl ⟨h200, ?_⟩
    rw [get_sentiment_analysis_def, if_neg h200]

/-- C2 (counterexample): on unparseable model output the fallback's
`keywords` is `["Error"]`, not the empty sequence the claim states. -/
theorem c2_counterexample :
    get_sentiment_analysis searchDown (generateConst "这不是JSON") "t" =
      Except.ok (fallbackReport "这不是JSON") ∧
    Json.get? (fallbackReport "这不是JSON") "keywords" ≠ some (Json.arr []) := by
  refine ⟨rfl, fun h => ?_⟩
  exact absurd (congrArg arrLenOpt h) (by decide)

/-- C2 (amended): when the completion collaborator answers 200 and the
sanitised content `T` is not valid JSON, the pipeline returns — without
failing — the fallback report with `sentiment_score = 50`,
`sentiment_label = "解析错误"`, `keywords = ["Error"]` (not `[]` as
claimed), `trend_data = []`, and `report_markdown` containing `T`
verbatim. -/
theorem c2_fallback_fields_amended
    (search : SearchArgs → Except Unit (List SearchResult))
    (generate : String → CompletionResponse) (topic : String) (T : String)
    (h200 : (generate (buildPrompt topic (retrieveContext search topic))).status_code = 200)
    (hT : sanitize (generate (buildPrompt topic (retrieveContext search topic))).content = T)
    (hbad : json_loads T = none) :
    get_sentiment_analysis search generate topic = Except.ok (fallbackReport T) ∧
    Json.intField (fallbackReport T) "sentiment_score" = some 50 ∧
    Json.strField (fallbackReport T) "sentiment_label" = some "解析错误" ∧
    Json.get? (fallbackReport T) "keywords" = some (Json.arr [Json.str "Error"]) ∧
    Json.get? (fallbackReport T) "trend_data" = some (Json.arr []) ∧
    Json.strField (fallbackReport T) "report_markdown" =
      some ("解析模型输出失败，原始输出：\n" ++ T) := by
  refine ⟨?_, rfl, rfl, rfl, rfl, rfl⟩
  rw [get_sentiment_analysis_def, if_pos h200, hT, hbad]

/-- C2 witness at a concrete run: content `"这不是JSON"` is not JSON. -/
theorem c2_fallback_fields_amended_witness :
    get_sentiment_analysis searchDown (generateConst "这不是JSON") "华为" =
      Except.ok (fallbackReport "这不是JSON") ∧
    Json.intField (fallbackReport "这不是JSON") "sentiment_score" = some 50 ∧
    Json.strField (fallbackReport "这不是JSON") "sentiment_label" = some "解析错误" ∧
    Json.get? (fallbackReport "这不是JSON") "keywords" = some (Json.arr [Json.str "Error"]) ∧
    Json.get? (fallbackReport "这不是JSON") "trend_data" = some (Json.arr []) ∧
    Json.strField (fallbackReport "这不是JSON") "report_markdown" =
      some ("解析模型输出失败，原始输出：\n" ++ "这不是JSON") :=
  c2_fallback_fields_amended searchDown (generateConst "这不是JSON") "华为" "这不是JSON"
    rfl rfl rfl

/-- C3: sanitising a fence-wrapped text (` ```json ` before, ` ``` `
after) and JSON-parsing the result is identical to JSON-parsing the
sanitised unwrapped inner text; indeed the sanitised strings coincide
for every inner text `T`. -/
theorem c3_fence_wrap_parse_agrees (T : String) :
    json_loads (sanitize ("```json" ++ T ++ "```")) = json_loads (sanitize T) ∧
    sanitize ("```json" ++ T ++ "```") = sanitize T :=
  ⟨by rw [sanitize_wrap], sanitize_wrap T⟩

/-- C4: if the search collaborator fails (unconfigured, raising, or
malformed — all absorbed by the same `except` block), the context fed to
prompt construction is the fixed sentinel, and with a healthy completion
collaborator the request still completes successfully (HTTP 200). -/
theorem c4_search_failure_absorbed
    (search : SearchArgs → Except Unit (List SearchResult))
    (generate : String → CompletionResponse) (topic : String)
    (hs : ∀ a, search a = Except.error ())
    (hg : ∀ p, (generate p).status_code = 200) :
    retrieveContext search topic = "搜索失败，仅基于模型知识库分析。" ∧
    ∃ v, get_sentiment_analysis search generate topic = Except.ok v := by
  have hctx : retrieveContext search topic = "搜索失败，仅基于模型知识库分析。" := by
    unfold retrieveContext
    rw [hs (searchArgs topic)]
  refine ⟨hctx, ?_⟩
  rw [get_sentiment_analysis_def, if_pos (hg _)]
  cases hj : json_loads (sanitize (generate (buildPrompt topic (retrieveContext search topic))).content) with
  | none => exact ⟨_, rfl⟩
  | some v => exact ⟨v, rfl⟩

/-- C4 witness: a concrete failing search collaborator and a healthy
completion collaborator. -/
theorem c4_search_failure_absorbed_witness :
    retrieveContext searchDown "小米SU7" = "搜索失败，仅基于模型知识库分析。" ∧
    ∃ v, get_sentiment_analysis searchDown (generateConst "hello") "小米SU7" = Except.ok v :=
  c4_search_failure_absorbed searchDown (generateConst "hello") "小米SU7"
    (fun _ => rfl) (fun _ => rfl)

/-- C5: a non-success completion status with message `msg` makes the
request fail with a 500 whose detail contains `msg`; and a success status
always yields a success body, so the non-success status is the only
failing condition. -/
theorem c5_model_error_propagates
    (search : SearchArgs → Except Unit (List SearchResult))
    (generate : String → CompletionResponse) (topic : String) (msg : String)
    (hstatus : (generate (buildPrompt topic (retrieveContext search topic))).status_code ≠ 200)
    (hmsg : (generate (buildPrompt topic (retrieveContext search topic))).message = msg) :
    get_sentiment_analysis search generate topic =
      Except.error ⟨500, "Model Error: " ++ msg⟩ ∧
    (∃ pre post, "Model Error: " ++ msg = pre ++ msg ++ post) ∧
    (∀ search' generate' topic',
      (generate' (buildPrompt topic' (retrieveContext search' topic'))).status_code = 200 →
      ∃ v, get_sentiment_analysis search' generate' topic' = Except.ok v) := by
  refine ⟨?_, ⟨"Model Error: ", "", by rw [String.append_empty]⟩, ?_⟩
  · rw [get_sentiment_analysis_def, if_neg hstatus, hmsg]
  · intro search' generate' topic' h200
    rw [get_sentiment_analysis_def, if_pos h200]
    cases hj : json_loads (sanitize (generate' (buildPrompt topic' (retrieveContext search' topic'))).content) with
    | none => exact ⟨_, rfl⟩
    | some v => exact ⟨v, rfl⟩

/-- C5 witness: a collaborator failing with status 403 and message
`"quota exceeded"`. -/
theorem c5_model_error_propagates_witness :
    get_sentiment_analysis searchDown (generateFail 403 "quota exceeded") "华为" =
      Except.error ⟨500, "Model Error: quota exceeded"⟩ ∧
    (∃ pre post, "Model Error: quota exceeded" = pre ++ "quota exceeded" ++ post) ∧
    (∀ search' generate' topic',
      (generate' (buildPrompt topic' (retrieveContext search' topic'))).status_code = 200 →
      ∃ v, get_sentiment_analysis search' generate' topic' = Except.ok v) :=
  c5_model_error_propagates searchDown (generateFail 403 "quota exceeded") "华为"
    "quota exceeded" (by decide) rfl

/-- C6: when the completion succeeds and the sanitised content parses as
JSON value `v`, the pipeline returns exactly `v`, with no field, type or
range validation. -/
theorem c6_parsed_passthrough
    (search : SearchArgs → Except Unit (List SearchResult))
    (generate : String → CompletionResponse) (topic : String) (v : Json)
    (h200 : (generate (buildPrompt topic (retrieveContext search topic))).status_code = 200)
    (hv : json_loads (sanitize (generate (buildPrompt topic (retrieveContext search topic))).content) = some v) :
    get_sentiment_analysis search generate topic = Except.ok v := by
  rw [get_sentiment_analysis_def, if_pos h200, hv]

/-- C6 witness: a `sentiment_score` of 150, outside 0-100, is passed
through unclamped. -/
theorem c6_parsed_passthrough_witness :
    get_sentiment_analysis searchDown (generateConst "\x7b\"sentiment_score\": 150\x7d") "t" =
      Except.ok (Json.obj [("sentiment_score", Json.num 150)]) ∧
    Json.intField (Json.obj [("sentiment_score", Json.num 150)]) "sentiment_score" = some 150 :=
  ⟨c6_parsed_passthrough searchDown (generateConst "\x7b\"sentiment_score\": 150\x7d") "t"
      (Json.obj [("sentiment_score", Json.num 150)]) rfl rfl,
    rfl⟩

/-- C7: the search collaborator is queried with the topic followed by the
fixed domain-steering terms, at "advanced" depth with at most 5 results,
and on success the context is the results joined newline-separated in
order, each formatted `- [title](url): content`. -/
theorem c7_context_formatting
    (search : SearchArgs → Except Unit (List SearchResult)) (topic : String)
    (results : List SearchResult)
    (h : search (searchArgs topic) = Except.ok results) :
    searchArgs topic = ⟨topic ++ " 最新评论 争议 事件分析", "advanced", 5⟩ ∧
    retrieveContext search topic = String.intercalate "\n" (results.map fmtSearchResult) ∧
    ∀ r, fmtSearchResult r = "- [" ++ r.title ++ "](" ++ r.url ++ "): " ++ r.content := by
  refine ⟨rfl, ?_, fun r => rfl⟩
  unfold retrieveContext
  rw [h]

/-- C7 witness at a concrete provider response. -/
theorem c7_context_formatting_witness :
    retrieveContext searchTwo "小米" =
      "- [标题一](https://a.example): 内容一\n- [标题二](https://b.example): 内容二" := by
  rw [(c7_context_formatting searchTwo "小米"
    [⟨"标题一", "https://a.example", "内容一"⟩, ⟨"标题二", "https://b.example", "内容二"⟩]
    rfl).2.1]
  rfl

/-- C8: prompt construction is the fixed template with the topic and the
context embedded verbatim: it equals the fixed pieces concatenated around
its two inputs, so equal inputs give character-identical prompts and both
inputs occur as substrings. -/
theorem c8_prompt_template (topic context : String) :
    buildPrompt topic context = promptPre ++ topic ++ promptMid ++ context ++ promptPost ∧
    ∃ pre mid post, buildPrompt topic context = pre ++ (topic ++ (mid ++ (context ++ post))) := by
  refine ⟨rfl, promptPre, promptMid, promptPost, ?_⟩
  unfold buildPrompt
  rw [String.append_assoc, String.append_assoc, String.append_assoc]

set_option maxRecDepth 16384 in
/-- C9: there is a completion content that is already valid
AnalysisReport-shaped JSON for which the pipeline does not return the
parse of the original content — the fence stripping rewrites text inside
a string literal, so a different object is returned. -/
theorem c9_stripping_alters_valid_json :
    json_loads c9content = some c9orig ∧
    isReportShaped c9orig = true ∧
    get_sentiment_analysis searchDown (generateConst c9content) "t" = Except.ok c9stripped ∧
    c9stripped ≠ c9orig :=
  ⟨rfl, rfl, rfl,
    fun h => absurd (congrArg (fun j => Json.strField j "report_markdown") h) (by decide)⟩

/-- C10: the server does not enforce non-emptiness of `topic`: the body
`\x7b"topic": ""\x7d` passes validation, and the handler runs the very same
pipeline on `""` as it would on any other string — no validation error at
the public boundary. -/
theorem c10_empty_topic_accepted
    (search : SearchArgs → Except Unit (List SearchResult))
    (generate : String → CompletionResponse) :
    parseTopicRequest (Json.obj [("topic", Json.str "")]) = some ⟨""⟩ ∧
    analyze_sentiment search generate (Json.obj [("topic", Json.str "")]) =
      HandlerOutcome.response (get_sentiment_analysis search generate "") :=
  ⟨rfl, rfl⟩
